import Mathlib

/-!
Verification of the constrained route-sequencing engine from
src/ProjectArjunaControl/src/services/routeOptimizationService.ts.

The TypeScript service is shallowly embedded: JavaScript numbers become
real numbers, arrays become lists, and the two helpers of the JavaScript
runtime that the service uses (Math.atan2 and Math.round) are modelled
explicitly as jsAtan2 and jsRound. Fields and function names follow the
source. The while loop of the nearest-neighbor constructor is modelled
with a fuel argument equal to the length of the unvisited list; the loop
removes one element of that list per iteration, so the fuel never runs
out and the embedding computes the same route as the source loop.
-/

namespace Arjuna

/-- Model of JavaScript Math.round: round half up, i.e. floor after adding 1/2. -/
noncomputable def jsRound (x : ℝ) : ℝ := ((⌊x + 1 / 2⌋ : ℤ) : ℝ)

/-- Model of the JavaScript remainder a % b for the positive arguments the
service feeds it (the remainder of a truncated division; for a nonnegative
dividend and positive divisor it coincides with the floor remainder used here). -/
noncomputable def jsMod (a b : ℝ) : ℝ := a - b * ((⌊a / b⌋ : ℤ) : ℝ)

/-- Model of JavaScript Math.atan2 on real arguments. -/
noncomputable def jsAtan2 (y x : ℝ) : ℝ :=
  if 0 < x then Real.arctan (y / x)
  else if x < 0 then
    (if 0 ≤ y then Real.arctan (y / x) + Real.pi else Real.arctan (y / x) - Real.pi)
  else if 0 < y then Real.pi / 2
  else if y < 0 then -(Real.pi / 2)
  else 0

/-- Source: private static toRadians(degrees) = degrees * (Math.PI / 180). -/
noncomputable def toRadians (degrees : ℝ) : ℝ := degrees * (Real.pi / 180)

/-- Source: private static toDegrees(radians) = radians * (180 / Math.PI). -/
noncomputable def toDegrees (radians : ℝ) : ℝ := radians * (180 / Real.pi)

/-- Source interface Coordinate: latitude and longitude in decimal degrees. -/
structure Coordinate where
  latitude : ℝ
  longitude : ℝ

noncomputable instance : DecidableEq Coordinate := Classical.decEq _

/-- The three values of the string union type of RouteWaypoint.type in the source. -/
inductive WType where
  | base
  | delivery
  | waypoint
deriving DecidableEq

/-- Source interface RouteWaypoint. -/
structure RouteWaypoint where
  id : String
  coordinate : Coordinate
  missionId : Option String
  type : WType
  priority : ℝ
  estimatedTime : Option ℝ

noncomputable instance : DecidableEq RouteWaypoint := Classical.decEq _

/-- Source interface OptimizedRoute. -/
structure OptimizedRoute where
  waypoints : List RouteWaypoint
  totalDistance : ℝ
  totalTime : ℝ
  efficiency : ℝ
  fuelConsumption : ℝ

/-- Source interface DroneSpecs. -/
structure DroneSpecs where
  maxRange : ℝ
  maxFlightTime : ℝ
  speed : ℝ
  batteryCapacity : ℝ

/-- The planning-relevant fields of the source interface Mission (the service
reads only id, priority and target_location; the remaining record fields are
data for other subsystems and are omitted from the embedding). -/
structure Mission where
  id : String
  priority : String
  target_location : Coordinate

/-- Source: private static readonly EARTH_RADIUS = 6371. -/
def EARTH_RADIUS : ℝ := 6371

/-- Source: private static readonly BASE_LOCATION (NYC coordinates). -/
noncomputable def BASE_LOCATION : Coordinate := ⟨40.7128, -74.0060⟩

/-- The intermediate value named a in calculateDistance in the source. -/
noncomputable def haversineA (coord1 coord2 : Coordinate) : ℝ :=
  let dLat := toRadians (coord2.latitude - coord1.latitude)
  let dLon := toRadians (coord2.longitude - coord1.longitude)
  Real.sin (dLat / 2) * Real.sin (dLat / 2) +
    Real.cos (toRadians coord1.latitude) * Real.cos (toRadians coord2.latitude) *
      (Real.sin (dLon / 2) * Real.sin (dLon / 2))

/-- Source: static calculateDistance, the haversine distance with c = 2 * atan2(sqrt a, sqrt (1 - a)). -/
noncomputable def calculateDistance (coord1 coord2 : Coordinate) : ℝ :=
  EARTH_RADIUS *
    (2 * jsAtan2 (Real.sqrt (haversineA coord1 coord2)) (Real.sqrt (1 - haversineA coord1 coord2)))

/-- The base waypoint built first in missionsToWaypoints. -/
noncomputable def baseWaypoint : RouteWaypoint :=
  ⟨"base", BASE_LOCATION, none, WType.base, 0, none⟩

/-- Source: private static getPriorityValue, a switch over the priority string
with default 1. -/
noncomputable def getPriorityValue (priority : String) : ℝ :=
  match priority with
  | "emergency" => 4
  | "high" => 3
  | "medium" => 2
  | "low" => 1
  | _ => 1

/-- The delivery waypoint built from one mission inside missionsToWaypoints. -/
noncomputable def missionWaypoint (mission : Mission) : RouteWaypoint :=
  ⟨mission.id, mission.target_location, some mission.id, WType.delivery,
    getPriorityValue mission.priority, none⟩

/-- Source: static missionsToWaypoints, the base waypoint followed by one
delivery waypoint per mission. -/
noncomputable def missionsToWaypoints (missions : List Mission) : List RouteWaypoint :=
  baseWaypoint :: missions.map missionWaypoint

/-- Travel minutes of a leg, (distance / speed) * 60, computed inline in the source. -/
noncomputable def legMinutes (droneSpecs : DroneSpecs) (distance : ℝ) : ℝ :=
  distance / droneSpecs.speed * 60

/-- The score of a feasible candidate: distance * priorityWeight with
priorityWeight = 6 - waypoint.priority, as in the source. -/
noncomputable def candidateScore (distance : ℝ) (waypoint : RouteWaypoint) : ℝ :=
  distance * (6 - waypoint.priority)

/-- One iteration of the inner for-loop over unvisited candidates: skip the
candidate if the trip there plus the return to base would exceed
maxFlightTime, otherwise keep it when its score beats the best so far.
None plays the role of bestScore = Infinity in the source. -/
noncomputable def selectStep (droneSpecs : DroneSpecs) (current base : RouteWaypoint)
    (totalTime : ℝ) (best : Option (RouteWaypoint × ℝ)) (waypoint : RouteWaypoint) :
    Option (RouteWaypoint × ℝ) :=
  let distance := calculateDistance current.coordinate waypoint.coordinate
  let time := legMinutes droneSpecs distance
  let returnDistance := calculateDistance waypoint.coordinate base.coordinate
  let returnTime := legMinutes droneSpecs returnDistance
  if totalTime + time + returnTime > droneSpecs.maxFlightTime then best
  else
    let score := candidateScore distance waypoint
    match best with
    | none => some (waypoint, score)
    | some (bw, bs) => if score < bs then some (waypoint, score) else some (bw, bs)

/-- The bestNext candidate chosen by the inner for-loop. -/
noncomputable def selectBest (droneSpecs : DroneSpecs) (current base : RouteWaypoint)
    (unvisited : List RouteWaypoint) (totalTime : ℝ) : Option RouteWaypoint :=
  (unvisited.foldl (selectStep droneSpecs current base totalTime) none).map Prod.fst

/-- Removal of the chosen candidate from unvisited:
unvisited.splice(unvisited.indexOf(bestNext), 1) removes its first occurrence. -/
noncomputable def removeFirst : List RouteWaypoint → RouteWaypoint → List RouteWaypoint
  | [], _ => []
  | x :: xs, w => if x = w then xs else x :: removeFirst xs w

/-- The while loop of nearestNeighborWithPriority. The fuel argument is
initialised to the length of the unvisited list; each iteration removes the
selected element from that list, so the loop of the source performs at most
that many iterations and the embedding is exact. -/
noncomputable def nnLoop (droneSpecs : DroneSpecs) (base : RouteWaypoint) :
    ℕ → List RouteWaypoint → List RouteWaypoint → RouteWaypoint → ℝ → ℝ →
      List RouteWaypoint
  | 0, _, route, _, _, _ => route
  | fuel + 1, unvisited, route, currentPosition, totalTime, totalDistance =>
    if unvisited = [] ∨ ¬(totalTime < droneSpecs.maxFlightTime) then route
    else
      match selectBest droneSpecs currentPosition base unvisited totalTime with
      | none => route
      | some bestNext =>
        let distance := calculateDistance currentPosition.coordinate bestNext.coordinate
        nnLoop droneSpecs base fuel (removeFirst unvisited bestNext) (route ++ [bestNext])
          bestNext (totalTime + legMinutes droneSpecs distance) (totalDistance + distance)

/-- The closing block of nearestNeighborWithPriority: append the base waypoint
when the route has more than one waypoint and does not already end at one of
type base. -/
noncomputable def closeRoute (route : List RouteWaypoint) (base : RouteWaypoint) :
    List RouteWaypoint :=
  if 1 < route.length then
    match route.getLast? with
    | some lastW => if lastW.type = WType.base then route else route ++ [base]
    | none => route
  else route

/-- Source: private static nearestNeighborWithPriority. -/
noncomputable def nearestNeighborWithPriority (waypoints : List RouteWaypoint)
    (droneSpecs : DroneSpecs) : List RouteWaypoint :=
  if waypoints = [] then []
  else
    match waypoints.find? (fun w => decide (w.type = WType.base)) with
    | none => waypoints
    | some base =>
      let unvisited := waypoints.filter (fun w => decide (w.type ≠ WType.base))
      closeRoute (nnLoop droneSpecs base unvisited.length unvisited [base] base 0 0) base

/-- The four numeric fields computed by calculateRouteMetrics. -/
structure RouteMetrics where
  totalDistance : ℝ
  totalTime : ℝ
  efficiency : ℝ
  fuelConsumption : ℝ

/-- The for-loop of calculateRouteMetrics: accumulated (distance, time) over
consecutive waypoint pairs, adding 5 delivery minutes when the pair target is
a delivery waypoint. -/
noncomputable def metricsLoop (droneSpecs : DroneSpecs) : List RouteWaypoint → ℝ × ℝ
  | w1 :: w2 :: rest =>
    let distance := calculateDistance w1.coordinate w2.coordinate
    let time := legMinutes droneSpecs distance
    let deliveryTime : ℝ := if w2.type = WType.delivery then 5 else 0
    let acc := metricsLoop droneSpecs (w2 :: rest)
    (distance + acc.1, time + deliveryTime + acc.2)
  | _ => (0, 0)

/-- Source: private static calculateRouteMetrics. Note that the efficiency it
computes divides the delivery-waypoint count by itself. -/
noncomputable def calculateRouteMetrics (waypoints : List RouteWaypoint)
    (droneSpecs : DroneSpecs) : RouteMetrics :=
  let sums := metricsLoop droneSpecs waypoints
  let totalDistance := sums.1
  let totalTime := sums.2
  let deliveryWaypoints := (waypoints.filter (fun w => decide (w.type = WType.delivery))).length
  let efficiency : ℝ :=
    if 0 < deliveryWaypoints then ((deliveryWaypoints : ℝ) / (deliveryWaypoints : ℝ)) * 100
    else 100
  let fuelConsumption := min (totalTime / droneSpecs.maxFlightTime * droneSpecs.batteryCapacity) 100
  ⟨jsRound (totalDistance * 100) / 100, jsRound totalTime,
    jsRound (efficiency * 100) / 100, jsRound fuelConsumption⟩

/-- The default DroneSpecs of optimizeRoute. -/
noncomputable def defaultDroneSpecs : DroneSpecs := ⟨50, 120, 60, 100⟩

/-- Source: static optimizeRoute. -/
noncomputable def optimizeRoute (missions : List Mission) (droneSpecs : DroneSpecs) :
    OptimizedRoute :=
  let waypoints := missionsToWaypoints missions
  if waypoints.length ≤ 1 then ⟨waypoints, 0, 0, 100, 0⟩
  else
    let optimizedWaypoints := nearestNeighborWithPriority waypoints droneSpecs
    let metrics := calculateRouteMetrics optimizedWaypoints droneSpecs
    ⟨optimizedWaypoints, metrics.totalDistance, metrics.totalTime, metrics.efficiency,
      metrics.fuelConsumption⟩

/-- Strategy 1 ordering: [...missions].sort by descending priority value; the
JavaScript comparator getPriorityValue(b) - getPriorityValue(a) keeps a before
b exactly when the value of b is at most the value of a, and Array.sort is
stable, so a stable merge sort with that relation is an exact model. -/
noncomputable def sortByPriorityDesc (missions : List Mission) : List Mission :=
  missions.mergeSort (fun a b =>
    decide (getPriorityValue b.priority ≤ getPriorityValue a.priority))

/-- Source: private static sortByDistanceFromBase, a sort of a spread copy by
ascending distance from BASE_LOCATION. -/
noncomputable def sortByDistanceFromBase (missions : List Mission) : List Mission :=
  missions.mergeSort (fun a b =>
    decide (calculateDistance BASE_LOCATION a.target_location ≤
      calculateDistance BASE_LOCATION b.target_location))

/-- The final routes.sort((a, b) => b.efficiency - a.efficiency), descending. -/
noncomputable def sortRoutesByEfficiencyDesc (routes : List OptimizedRoute) :
    List OptimizedRoute :=
  routes.mergeSort (fun a b => decide (b.efficiency ≤ a.efficiency))

/-- Source: static generateRouteOptions. The optional droneSpecs argument
falls back to the default of optimizeRoute when absent. -/
noncomputable def generateRouteOptions (missions : List Mission)
    (droneSpecs : Option DroneSpecs) : List OptimizedRoute :=
  let specs := droneSpecs.getD defaultDroneSpecs
  let prioritySorted := sortByPriorityDesc missions
  let distanceSorted := sortByDistanceFromBase missions
  sortRoutesByEfficiencyDesc
    [optimizeRoute prioritySorted specs, optimizeRoute distanceSorted specs,
      optimizeRoute missions specs]

/-- State-threading variant of generateRouteOptions for the frame claim: the
caller-supplied missions array is threaded through explicitly. Both sorted
orderings are built from spread copies of it and no statement of the source
function assigns to, sorts, or splices the caller array itself, so the thread
returns that array unchanged next to the result. -/
noncomputable def generateRouteOptionsTracked (missions : List Mission)
    (droneSpecs : Option DroneSpecs) : List OptimizedRoute × List Mission :=
  let specs := droneSpecs.getD defaultDroneSpecs
  let copy1 := missions
  let prioritySorted := copy1.mergeSort (fun a b =>
    decide (getPriorityValue b.priority ≤ getPriorityValue a.priority))
  let copy2 := missions
  let distanceSorted := copy2.mergeSort (fun a b =>
    decide (calculateDistance BASE_LOCATION a.target_location ≤
      calculateDistance BASE_LOCATION b.target_location))
  let routes := [optimizeRoute prioritySorted specs, optimizeRoute distanceSorted specs,
    optimizeRoute missions specs]
  (sortRoutesByEfficiencyDesc routes, missions)

/-- Source: private static calculateBearing. -/
noncomputable def calculateBearing (fromC toC : Coordinate) : ℝ :=
  let dLon := toRadians (toC.longitude - fromC.longitude)
  let lat1 := toRadians fromC.latitude
  let lat2 := toRadians toC.latitude
  let y := Real.sin dLon * Real.cos lat2
  let x := Real.cos lat1 * Real.sin lat2 - Real.sin lat1 * Real.cos lat2 * Real.cos dLon
  jsMod (toDegrees (jsAtan2 y x) + 360) 360

/-- The fixed 8-label compass table of bearingToDirection. -/
def directions : List String := ["N", "NE", "E", "SE", "S", "SW", "W", "NW"]

/-- Source: private static bearingToDirection, directions[Math.round(bearing / 45) % 8].
The index is modelled with the nonnegative integer remainder, which agrees
with the JavaScript remainder on the [0, 360) bearings the service produces. -/
noncomputable def bearingToDirection (bearing : ℝ) : String :=
  directions.getD (⌊bearing / 45 + 1 / 2⌋ % 8).toNat "N"

/-- Model of Number.prototype.toFixed(1) for the nonnegative distances the
service prints: the value rounded to one decimal, rendered as integer part,
dot, tenths digit. -/
noncomputable def toFixed1 (x : ℝ) : String :=
  let n : ℤ := ⌊x * 10 + 1 / 2⌋
  toString (n / 10) ++ "." ++ toString (n % 10)

/-- The for-loop of generateNavigationInstructions over consecutive waypoint
pairs: a Proceed line for a delivery target, a Return line for a base target,
and nothing for a plain waypoint target. -/
noncomputable def instructionsLoop : List RouteWaypoint → List String
  | current :: next :: rest =>
    let distance := calculateDistance current.coordinate next.coordinate
    let bearing := calculateBearing current.coordinate next.coordinate
    let tail := instructionsLoop (next :: rest)
    match next.type with
    | WType.delivery =>
      ("Proceed " ++ toFixed1 distance ++ "km " ++ bearingToDirection bearing ++
        " to delivery point " ++ next.id) :: tail
    | WType.base =>
      ("Return " ++ toFixed1 distance ++ "km " ++ bearingToDirection bearing ++
        " to base") :: tail
    | WType.waypoint => tail
  | _ => []

/-- Source: static generateNavigationInstructions. -/
noncomputable def generateNavigationInstructions (route : OptimizedRoute) : List String :=
  instructionsLoop route.waypoints

/-- Travel minutes accumulated along consecutive legs of a waypoint sequence
(no dwell time), the quantity the while loop of the constructor tracks as
totalTime. -/
noncomputable def pathTravelTime (droneSpecs : DroneSpecs) : List RouteWaypoint → ℝ
  | w1 :: w2 :: rest =>
    legMinutes droneSpecs (calculateDistance w1.coordinate w2.coordinate) +
      pathTravelTime droneSpecs (w2 :: rest)
  | _ => 0

/-- Number of delivery waypoints in a list, used to express the dwell time the
specification expects to be accumulated. -/
def dwellCount (l : List RouteWaypoint) : ℕ :=
  (l.filter (fun w => decide (w.type = WType.delivery))).length

/-- Identifiers of the delivery waypoints of a route, in order. -/
def deliveryIds (l : List RouteWaypoint) : List String :=
  (l.filter (fun w => decide (w.type = WType.delivery))).map RouteWaypoint.id

/-- Candidate feasibility as tested by the inner loop: the leg to the
candidate plus the return leg to base, added to the elapsed time, must not
exceed maxFlightTime. -/
def feasibleStep (droneSpecs : DroneSpecs) (current base : RouteWaypoint) (totalTime : ℝ)
    (waypoint : RouteWaypoint) : Prop :=
  ¬(totalTime + legMinutes droneSpecs (calculateDistance current.coordinate waypoint.coordinate) +
      legMinutes droneSpecs (calculateDistance waypoint.coordinate base.coordinate) >
    droneSpecs.maxFlightTime)


/-- Longitude of a point at the base latitude whose haversine distance from
BASE_LOCATION is exactly 200 km: the longitude offset is chosen so that the
half great-circle angle is 100 / 6371 radians. -/
noncomputable def farLongitude : ℝ :=
  -74.0060 + toDegrees (2 * Real.arcsin (Real.sin (100 / 6371) / Real.cos (toRadians 40.7128)))

/-- A mission whose delivery target lies exactly 200 km from the base. -/
noncomputable def m200 : Mission := ⟨"far", "low", ⟨40.7128, farLongitude⟩⟩

/-- A mission whose delivery target is the base location itself (distance 0). -/
noncomputable def m0 : Mission := ⟨"m1", "low", BASE_LOCATION⟩

/-- Vehicle profile with maxFlightTime 403, used to show that no dwell time is
accounted for during construction. -/
noncomputable def specs403 : DroneSpecs := ⟨50, 403, 60, 100⟩

/-- Vehicle profile with the non-positive endurance 0, an invalid
configuration per the specification. -/
noncomputable def specs0 : DroneSpecs := ⟨50, 0, 60, 100⟩

/-- The travel-time feasibility invariant of a constructed route: every
delivery waypoint of the route was reachable, with a return to base, within
maxFlightTime at the moment it was appended. -/
def prefixOk (droneSpecs : DroneSpecs) (base : RouteWaypoint) (r : List RouteWaypoint) : Prop :=
  ∀ (k : ℕ) (w : RouteWaypoint), r[k]? = some w → w.type = WType.delivery →
    pathTravelTime droneSpecs (r.take (k + 1)) +
      legMinutes droneSpecs (calculateDistance w.coordinate base.coordinate) ≤
        droneSpecs.maxFlightTime

lemma toRadians_zero : toRadians 0 = 0 := by simp [toRadians]

lemma toRadians_sub_symm (x y : ℝ) : toRadians (x - y) = -(toRadians (y - x)) := by
  simp [toRadians]; ring

lemma jsAtan2_zero_one : jsAtan2 0 1 = 0 := by
  simp [jsAtan2]

lemma haversineA_self (c : Coordinate) : haversineA c c = 0 := by
  simp [haversineA, toRadians]

lemma calculateDistance_self (c : Coordinate) : calculateDistance c c = 0 := by
  simp [calculateDistance, haversineA_self, jsAtan2_zero_one]

lemma haversineA_symm (a b : Coordinate) : haversineA a b = haversineA b a := by
  simp only [haversineA]
  rw [toRadians_sub_symm b.latitude a.latitude, toRadians_sub_symm b.longitude a.longitude]
  simp only [neg_div, Real.sin_neg]
  ring

lemma calculateDistance_symm (a b : Coordinate) :
    calculateDistance a b = calculateDistance b a := by
  unfold calculateDistance
  rw [haversineA_symm]


lemma selectStep_of_not_feasible (droneSpecs : DroneSpecs) (current base : RouteWaypoint)
    (totalTime : ℝ) (best : Option (RouteWaypoint × ℝ)) (waypoint : RouteWaypoint)
    (hnf : ¬feasibleStep droneSpecs current base totalTime waypoint) :
    selectStep droneSpecs current base totalTime best waypoint = best := by
  have h := not_not.mp hnf
  simp only [selectStep, if_pos h]

lemma selectStep_of_feasible (droneSpecs : DroneSpecs) (current base : RouteWaypoint)
    (totalTime : ℝ) (best : Option (RouteWaypoint × ℝ)) (waypoint : RouteWaypoint)
    (hf : feasibleStep droneSpecs current base totalTime waypoint) :
    selectStep droneSpecs current base totalTime best waypoint =
      match best with
      | none => some (waypoint,
          candidateScore (calculateDistance current.coordinate waypoint.coordinate) waypoint)
      | some (bw, bs) =>
        if candidateScore (calculateDistance current.coordinate waypoint.coordinate) waypoint
            < bs then
          some (waypoint,
            candidateScore (calculateDistance current.coordinate waypoint.coordinate) waypoint)
        else some (bw, bs) := by
  have h : ¬(totalTime +
      legMinutes droneSpecs (calculateDistance current.coordinate waypoint.coordinate) +
      legMinutes droneSpecs (calculateDistance waypoint.coordinate base.coordinate) >
    droneSpecs.maxFlightTime) := hf
  simp only [selectStep, if_neg h]

lemma foldl_selectStep_spec (droneSpecs : DroneSpecs) (current base : RouteWaypoint)
    (totalTime : ℝ) :
    ∀ (uv : List RouteWaypoint) (acc : Option (RouteWaypoint × ℝ)) (w : RouteWaypoint) (s : ℝ),
      uv.foldl (selectStep droneSpecs current base totalTime) acc = some (w, s) →
      (acc = some (w, s) ∨
        (w ∈ uv ∧
          s = candidateScore (calculateDistance current.coordinate w.coordinate) w ∧
          feasibleStep droneSpecs current base totalTime w)) ∧
      (∀ bw bs, acc = some (bw, bs) → s ≤ bs) ∧
      (∀ u ∈ uv, feasibleStep droneSpecs current base totalTime u →
        s ≤ candidateScore (calculateDistance current.coordinate u.coordinate) u) := by
  intro uv
  induction uv with
  | nil =>
    intro acc w s h
    simp only [List.foldl_nil] at h
    refine ⟨Or.inl h, ?_, by simp⟩
    intro bw bs hacc
    rw [hacc] at h
    simp only [Option.some.injEq, Prod.mk.injEq] at h
    exact le_of_eq h.2.symm
  | cons u rest ih =>
    intro acc w s h
    rw [List.foldl_cons] at h
    obtain ⟨hshape, haccle, hrest⟩ := ih _ w s h
    by_cases hf : feasibleStep droneSpecs current base totalTime u
    · rcases acc with _ | ⟨bw0, bs0⟩
      · have hstep : selectStep droneSpecs current base totalTime none u =
            some (u, candidateScore (calculateDistance current.coordinate u.coordinate) u) := by
          rw [selectStep_of_feasible droneSpecs current base totalTime none u hf]
        rw [hstep] at hshape haccle h
        have hle : s ≤ candidateScore (calculateDistance current.coordinate u.coordinate) u :=
          haccle _ _ rfl
        constructor
        · rcases hshape with h1 | h2
          · simp only [Option.some.injEq, Prod.mk.injEq] at h1
            obtain ⟨h1a, h1b⟩ := h1
            subst h1a
            exact Or.inr ⟨List.mem_cons_self u rest, h1b.symm, hf⟩
          · exact Or.inr ⟨List.mem_cons_of_mem u h2.1, h2.2⟩
        refine ⟨by simp, ?_⟩
        intro v hv hfv
        rcases List.mem_cons.mp hv with rfl | hv2
        · exact hle
        · exact hrest v hv2 hfv
      · by_cases hlt : candidateScore (calculateDistance current.coordinate u.coordinate) u < bs0
        · have hstep : selectStep droneSpecs current base totalTime (some (bw0, bs0)) u =
              some (u, candidateScore (calculateDistance current.coordinate u.coordinate) u) := by
            rw [selectStep_of_feasible droneSpecs current base totalTime (some (bw0, bs0)) u hf]
            simp [hlt]
          rw [hstep] at hshape haccle h
          have hle : s ≤ candidateScore (calculateDistance current.coordinate u.coordinate) u :=
            haccle _ _ rfl
          constructor
          · rcases hshape with h1 | h2
            · simp only [Option.some.injEq, Prod.mk.injEq] at h1
              obtain ⟨h1a, h1b⟩ := h1
              subst h1a
              exact Or.inr ⟨List.mem_cons_self u rest, h1b.symm, hf⟩
            · exact Or.inr ⟨List.mem_cons_of_mem u h2.1, h2.2⟩
          constructor
          · intro bw bs hacc
            simp only [Option.some.injEq, Prod.mk.injEq] at hacc
            exact le_trans hle (by rw [← hacc.2]; exact le_of_lt hlt)
          · intro v hv hfv
            rcases List.mem_cons.mp hv with rfl | hv2
            · exact hle
            · exact hrest v hv2 hfv
        · have hstep : selectStep droneSpecs current base totalTime (some (bw0, bs0)) u =
              some (bw0, bs0) := by
            rw [selectStep_of_feasible droneSpecs current base totalTime (some (bw0, bs0)) u hf]
            simp [hlt]
          rw [hstep] at hshape haccle h
          have hle : s ≤ bs0 := haccle _ _ rfl
          constructor
          · rcases hshape with h1 | h2
            · exact Or.inl h1
            · exact Or.inr ⟨List.mem_cons_of_mem u h2.1, h2.2⟩
          constructor
          · intro bw bs hacc
            simp only [Option.some.injEq, Prod.mk.injEq] at hacc
            rw [← hacc.2]
            exact hle
          · intro v hv hfv
            rcases List.mem_cons.mp hv with rfl | hv2
            · exact le_trans hle (not_lt.mp hlt)
            · exact hrest v hv2 hfv
    · have hstep : selectStep droneSpecs current base totalTime acc u = acc :=
        selectStep_of_not_feasible droneSpecs current base totalTime acc u hf
      rw [hstep] at hshape haccle
      constructor
      · rcases hshape with h1 | h2
        · exact Or.inl h1
        · exact Or.inr ⟨List.mem_cons_of_mem u h2.1, h2.2⟩
      refine ⟨haccle, ?_⟩
      intro v hv hfv
      rcases List.mem_cons.mp hv with rfl | hv2
      · exact absurd hfv hf
      · exact hrest v hv2 hfv

lemma selectBest_spec (droneSpecs : DroneSpecs) (current base : RouteWaypoint)
    (unvisited : List RouteWaypoint) (totalTime : ℝ) (w : RouteWaypoint)
    (h : selectBest droneSpecs current base unvisited totalTime = some w) :
    w ∈ unvisited ∧ feasibleStep droneSpecs current base totalTime w ∧
      ∀ u ∈ unvisited, feasibleStep droneSpecs current base totalTime u →
        candidateScore (calculateDistance current.coordinate w.coordinate) w ≤
          candidateScore (calculateDistance current.coordinate u.coordinate) u := by
  unfold selectBest at h
  rcases hfold : unvisited.foldl (selectStep droneSpecs current base totalTime) none with _ | p
  · rw [hfold] at h; simp at h
  · rw [hfold] at h
    simp only [Option.map_some', Option.some.injEq] at h
    obtain ⟨w0, s0⟩ := p
    subst h
    obtain ⟨hshape, _, hmin⟩ := foldl_selectStep_spec droneSpecs current base totalTime
      unvisited none w0 s0 hfold
    rcases hshape with h1 | h2
    · simp at h1
    · exact ⟨h2.1, h2.2.2, fun u hu hfu => by rw [← h2.2.1]; exact hmin u hu hfu⟩

lemma removeFirst_perm :
    ∀ (l : List RouteWaypoint) (w : RouteWaypoint), w ∈ l → l.Perm (w :: removeFirst l w) := by
  intro l
  induction l with
  | nil => intro w hw; simp at hw
  | cons x xs ih =>
    intro w hw
    by_cases hx : x = w
    · subst hx
      rw [removeFirst, if_pos rfl]
    · have hw2 : w ∈ xs := by
        rcases List.mem_cons.mp hw with h | h
        · exact absurd h.symm hx
        · exact h
      rw [removeFirst, if_neg hx]
      exact ((ih w hw2).cons x).trans (List.Perm.swap w x (removeFirst xs w))

lemma nnLoop_eq_append (droneSpecs : DroneSpecs) (base : RouteWaypoint) :
    ∀ (fuel : ℕ) (uv route : List RouteWaypoint) (cur : RouteWaypoint) (t d : ℝ),
      ∃ tail, nnLoop droneSpecs base fuel uv route cur t d = route ++ tail := by
  intro fuel
  induction fuel with
  | zero =>
    intro uv route cur t d
    exact ⟨[], by rw [nnLoop, List.append_nil]⟩
  | succ n ih =>
    intro uv route cur t d
    rw [nnLoop]
    by_cases h1 : uv = [] ∨ ¬(t < droneSpecs.maxFlightTime)
    · rw [if_pos h1]; exact ⟨[], (List.append_nil route).symm⟩
    · rw [if_neg h1]
      cases hsel : selectBest droneSpecs cur base uv t with
      | none => exact ⟨[], (List.append_nil route).symm⟩
      | some w =>
        obtain ⟨tail, ht⟩ := ih (removeFirst uv w) (route ++ [w]) w
          (t + legMinutes droneSpecs (calculateDistance cur.coordinate w.coordinate))
          (d + calculateDistance cur.coordinate w.coordinate)
        refine ⟨w :: tail, ?_⟩
        show nnLoop droneSpecs base n (removeFirst uv w) (route ++ [w]) w
            (t + legMinutes droneSpecs (calculateDistance cur.coordinate w.coordinate))
            (d + calculateDistance cur.coordinate w.coordinate) = route ++ w :: tail
        rw [ht]
        simp

lemma pathTravelTime_single (droneSpecs : DroneSpecs) (w : RouteWaypoint) :
    pathTravelTime droneSpecs [w] = 0 := rfl

lemma pathTravelTime_cons_cons (droneSpecs : DroneSpecs) (w1 w2 : RouteWaypoint)
    (rest : List RouteWaypoint) :
    pathTravelTime droneSpecs (w1 :: w2 :: rest) =
      legMinutes droneSpecs (calculateDistance w1.coordinate w2.coordinate) +
        pathTravelTime droneSpecs (w2 :: rest) := by
  rw [pathTravelTime]

lemma pathTravelTime_concat (droneSpecs : DroneSpecs) :
    ∀ (l : List RouteWaypoint) (c w : RouteWaypoint), l.getLast? = some c →
      pathTravelTime droneSpecs (l ++ [w]) =
        pathTravelTime droneSpecs l +
          legMinutes droneSpecs (calculateDistance c.coordinate w.coordinate) := by
  intro l
  induction l with
  | nil => intro c w h; simp at h
  | cons x xs ih =>
    intro c w h
    cases xs with
    | nil =>
      have hc : x = c := by simpa using h
      subst hc
      rw [List.cons_append, List.nil_append, pathTravelTime_cons_cons,
        pathTravelTime_single, pathTravelTime_single]
      ring
    | cons y ys =>
      rw [List.getLast?_cons_cons] at h
      have hih := ih c w h
      rw [show ((y :: ys : List RouteWaypoint) ++ [w]) = y :: (ys ++ [w]) from rfl] at hih
      rw [show ((x :: y :: ys : List RouteWaypoint) ++ [w]) = x :: y :: (ys ++ [w]) from rfl,
        pathTravelTime_cons_cons, hih, pathTravelTime_cons_cons]
      ring

lemma nnLoop_prefixOk (droneSpecs : DroneSpecs) (base : RouteWaypoint) :
    ∀ (fuel : ℕ) (uv route : List RouteWaypoint) (cur : RouteWaypoint) (t d : ℝ),
      route.getLast? = some cur → t = pathTravelTime droneSpecs route →
      prefixOk droneSpecs base route →
      prefixOk droneSpecs base (nnLoop droneSpecs base fuel uv route cur t d) := by
  intro fuel
  induction fuel with
  | zero => intro uv route cur t d _ _ hok; rw [nnLoop]; exact hok
  | succ n ih =>
    intro uv route cur t d hlast ht hok
    rw [nnLoop]
    by_cases h1 : uv = [] ∨ ¬(t < droneSpecs.maxFlightTime)
    · rw [if_pos h1]; exact hok
    · rw [if_neg h1]
      cases hsel : selectBest droneSpecs cur base uv t with
      | none => exact hok
      | some w =>
        show prefixOk droneSpecs base (nnLoop droneSpecs base n (removeFirst uv w)
          (route ++ [w]) w
          (t + legMinutes droneSpecs (calculateDistance cur.coordinate w.coordinate))
          (d + calculateDistance cur.coordinate w.coordinate))
        obtain ⟨hmem, hfeas, hmin⟩ := selectBest_spec droneSpecs cur base uv t w hsel
        have hfe : t + legMinutes droneSpecs (calculateDistance cur.coordinate w.coordinate) +
            legMinutes droneSpecs (calculateDistance w.coordinate base.coordinate) ≤
              droneSpecs.maxFlightTime := not_lt.mp hfeas
        have hptt : pathTravelTime droneSpecs (route ++ [w]) =
            t + legMinutes droneSpecs (calculateDistance cur.coordinate w.coordinate) := by
          rw [pathTravelTime_concat droneSpecs route cur w hlast, ht]
        apply ih
        · exact List.getLast?_concat route
        · exact hptt.symm
        · intro k v hk hdel
          by_cases hlt : k < route.length
          · rw [List.getElem?_append, if_pos hlt] at hk
            rw [List.take_append_of_le_length (by omega)]
            exact hok k v hk hdel
          · rw [List.getElem?_append, if_neg hlt] at hk
            rcases hkr : k - route.length with _ | i
            · rw [hkr] at hk
              have hv : v = w := by simpa using hk.symm
              subst hv
              have hklen : k = route.length := by omega
              subst hklen
              have htake : (route ++ [v]).take (route.length + 1) = route ++ [v] := by
                apply List.take_of_length_le
                simp
              rw [htake, hptt]
              exact hfe
            · rw [hkr] at hk
              simp at hk

lemma deliveryIds_cons (w : RouteWaypoint) (l : List RouteWaypoint) :
    deliveryIds (w :: l) = deliveryIds [w] ++ deliveryIds l := by
  by_cases h : w.type = WType.delivery <;> simp [deliveryIds, List.filter_cons, h]

lemma deliveryIds_append (l1 l2 : List RouteWaypoint) :
    deliveryIds (l1 ++ l2) = deliveryIds l1 ++ deliveryIds l2 := by
  simp [deliveryIds, List.filter_append]

lemma deliveryIds_perm (l l2 : List RouteWaypoint) (h : l.Perm l2) :
    (deliveryIds l).Perm (deliveryIds l2) := (h.filter _).map _

lemma nnLoop_deliveryIds_le (droneSpecs : DroneSpecs) (base : RouteWaypoint) :
    ∀ (fuel : ℕ) (uv route : List RouteWaypoint) (cur : RouteWaypoint) (t d : ℝ),
      (deliveryIds (nnLoop droneSpecs base fuel uv route cur t d) : Multiset String) ≤
        (deliveryIds route : Multiset String) + (deliveryIds uv : Multiset String) := by
  intro fuel
  induction fuel with
  | zero =>
    intro uv route cur t d
    rw [nnLoop]
    exact self_le_add_right _ _
  | succ n ih =>
    intro uv route cur t d
    rw [nnLoop]
    by_cases h1 : uv = [] ∨ ¬(t < droneSpecs.maxFlightTime)
    · rw [if_pos h1]; exact self_le_add_right _ _
    · rw [if_neg h1]
      cases hsel : selectBest droneSpecs cur base uv t with
      | none => exact self_le_add_right _ _
      | some w =>
        show (deliveryIds (nnLoop droneSpecs base n (removeFirst uv w) (route ++ [w]) w
          (t + legMinutes droneSpecs (calculateDistance cur.coordinate w.coordinate))
          (d + calculateDistance cur.coordinate w.coordinate)) : Multiset String) ≤
            (deliveryIds route : Multiset String) + (deliveryIds uv : Multiset String)
        have hmem := (selectBest_spec droneSpecs cur base uv t w hsel).1
        have hperm := removeFirst_perm uv w hmem
        have hsplit : (deliveryIds uv : Multiset String) =
            (deliveryIds [w] : Multiset String) +
              (deliveryIds (removeFirst uv w) : Multiset String) := by
          have h2 := deliveryIds_perm uv (w :: removeFirst uv w) hperm
          rw [deliveryIds_cons] at h2
          rw [Multiset.coe_eq_coe.mpr h2]
          exact (Multiset.coe_add _ _)
        calc (deliveryIds (nnLoop droneSpecs base n (removeFirst uv w) (route ++ [w]) w
              (t + legMinutes droneSpecs (calculateDistance cur.coordinate w.coordinate))
              (d + calculateDistance cur.coordinate w.coordinate)) : Multiset String) ≤
            (deliveryIds (route ++ [w]) : Multiset String) +
              (deliveryIds (removeFirst uv w) : Multiset String) := ih _ _ _ _ _
          _ = (deliveryIds route : Multiset String) +
              ((deliveryIds [w] : Multiset String) +
                (deliveryIds (removeFirst uv w) : Multiset String)) := by
              rw [deliveryIds_append]
              simp [add_assoc]
          _ = (deliveryIds route : Multiset String) + (deliveryIds uv : Multiset String) := by
              rw [hsplit]

lemma missionsToWaypoints_ne_nil (missions : List Mission) :
    missionsToWaypoints missions ≠ [] := by
  simp [missionsToWaypoints]

lemma missionsToWaypoints_find (missions : List Mission) :
    (missionsToWaypoints missions).find? (fun w => decide (w.type = WType.base)) =
      some baseWaypoint := by
  rw [missionsToWaypoints]
  exact List.find?_cons_of_pos _ (by simp [baseWaypoint])

lemma missionsToWaypoints_filter (missions : List Mission) :
    (missionsToWaypoints missions).filter (fun w => decide (w.type ≠ WType.base)) =
      missions.map missionWaypoint := by
  have h1 : (missionsToWaypoints missions).filter (fun w => decide (w.type ≠ WType.base)) =
      (missions.map missionWaypoint).filter (fun w => decide (w.type ≠ WType.base)) := by
    rw [missionsToWaypoints, List.filter_cons]
    norm_num [baseWaypoint]
  rw [h1, List.filter_map, List.filter_eq_self.mpr]
  intro a _
  simp [missionWaypoint, Function.comp]

lemma nearestNeighbor_missions_eq (missions : List Mission) (specs : DroneSpecs) :
    nearestNeighborWithPriority (missionsToWaypoints missions) specs =
      closeRoute (nnLoop specs baseWaypoint (missions.map missionWaypoint).length
        (missions.map missionWaypoint) [baseWaypoint] baseWaypoint 0 0) baseWaypoint := by
  rw [nearestNeighborWithPriority, if_neg (missionsToWaypoints_ne_nil missions),
    missionsToWaypoints_find]
  show closeRoute (nnLoop specs baseWaypoint
    ((missionsToWaypoints missions).filter (fun w => decide (w.type ≠ WType.base))).length
    ((missionsToWaypoints missions).filter (fun w => decide (w.type ≠ WType.base)))
    [baseWaypoint] baseWaypoint 0 0) baseWaypoint = _
  rw [missionsToWaypoints_filter]

lemma closeRoute_eq_or (route : List RouteWaypoint) (b : RouteWaypoint) :
    closeRoute route b = route ∨ closeRoute route b = route ++ [b] := by
  unfold closeRoute
  by_cases hlen : 1 < route.length
  · rw [if_pos hlen]
    cases hgl : route.getLast? with
    | none => exact Or.inl rfl
    | some lw =>
      by_cases hlw : lw.type = WType.base
      · left
        show (if lw.type = WType.base then route else route ++ [b]) = route
        rw [if_pos hlw]
      · right
        show (if lw.type = WType.base then route else route ++ [b]) = route ++ [b]
        rw [if_neg hlw]
  · rw [if_neg hlen]; exact Or.inl rfl

lemma closeRoute_getLast_base (b0 b : RouteWaypoint) (tail : List RouteWaypoint)
    (h0 : b0.type = WType.base) (hb : b.type = WType.base) :
    ∃ w, (closeRoute (b0 :: tail) b).getLast? = some w ∧ w.type = WType.base := by
  unfold closeRoute
  by_cases hlen : 1 < (b0 :: tail).length
  · rw [if_pos hlen]
    cases hgl : (b0 :: tail).getLast? with
    | none => simp at hgl
    | some lw =>
      by_cases hlw : lw.type = WType.base
      · refine ⟨lw, ?_, hlw⟩
        show (if lw.type = WType.base then b0 :: tail else (b0 :: tail) ++ [b]).getLast? =
          some lw
        rw [if_pos hlw]
        exact hgl
      · refine ⟨b, ?_, hb⟩
        show (if lw.type = WType.base then b0 :: tail else (b0 :: tail) ++ [b]).getLast? =
          some b
        rw [if_neg hlw]
        exact List.getLast?_concat _
  · rw [if_neg hlen]
    have htail : tail = [] := by
      cases tail with
      | nil => rfl
      | cons a l => simp at hlen
    subst htail
    exact ⟨b0, rfl, h0⟩

lemma closeRoute_head (route : List RouteWaypoint) (b : RouteWaypoint) :
    (closeRoute route b).head? = route.head? := by
  rcases closeRoute_eq_or route b with h | h
  · rw [h]
  · rw [h]
    cases route with
    | nil => simp [closeRoute] at h
    | cons x xs => simp

lemma jsRound_eq (x : ℝ) (z : ℤ) (h1 : (z : ℝ) ≤ x + 1 / 2) (h2 : x + 1 / 2 < z + 1) :
    jsRound x = (z : ℝ) := by
  unfold jsRound
  rw [Int.floor_eq_iff.mpr ⟨h1, h2⟩]

lemma toRadians_toDegrees (z : ℝ) : toRadians (toDegrees z) = z := by
  unfold toRadians toDegrees
  field_simp

lemma dist_BASE_far : calculateDistance BASE_LOCATION m200.target_location = 200 := by
  have hpi := Real.pi_gt_three
  have hx_pos : (0 : ℝ) < 100 / 6371 := by norm_num
  have hx_lt : (100 : ℝ) / 6371 < Real.pi / 2 := by
    have : (100 : ℝ) / 6371 < 3 / 2 := by norm_num
    linarith
  have hL_pos : 0 < toRadians 40.7128 := by
    unfold toRadians
    positivity
  have hL_lt : toRadians 40.7128 < Real.pi / 3 := by
    unfold toRadians
    nlinarith [Real.pi_pos]
  have hL_le_pi : Real.pi / 3 ≤ Real.pi := by linarith
  have hcosL : 1 / 2 < Real.cos (toRadians 40.7128) := by
    have h1 := Real.cos_lt_cos_of_nonneg_of_le_pi (le_of_lt hL_pos) hL_le_pi hL_lt
    rw [Real.cos_pi_div_three] at h1
    exact h1
  have hcosL_pos : 0 < Real.cos (toRadians 40.7128) := by linarith
  have hsin_pos : 0 < Real.sin (100 / 6371) :=
    Real.sin_pos_of_pos_of_lt_pi hx_pos (by linarith)
  have hsin_lt : Real.sin (100 / 6371) < 100 / 6371 := Real.sin_lt hx_pos
  have hsin_small : Real.sin (100 / 6371) < 1 / 2 := by
    have : (100 : ℝ) / 6371 < 1 / 2 := by norm_num
    linarith
  have hq_pos : 0 < Real.sin (100 / 6371) / Real.cos (toRadians 40.7128) :=
    div_pos hsin_pos hcosL_pos
  have hq_lt : Real.sin (100 / 6371) / Real.cos (toRadians 40.7128) < 1 :=
    (div_lt_one hcosL_pos).mpr (by linarith)
  have hdLon : toRadians (m200.target_location.longitude - BASE_LOCATION.longitude) =
      2 * Real.arcsin (Real.sin (100 / 6371) / Real.cos (toRadians 40.7128)) := by
    show toRadians (farLongitude - (-74.0060 : ℝ)) = _
    unfold farLongitude
    rw [show (-74.0060 : ℝ) +
        toDegrees (2 * Real.arcsin (Real.sin (100 / 6371) / Real.cos (toRadians 40.7128))) -
          (-74.0060 : ℝ) =
        toDegrees (2 * Real.arcsin (Real.sin (100 / 6371) / Real.cos (toRadians 40.7128)))
      from by ring]
    exact toRadians_toDegrees _
  have hsin_half : Real.sin (toRadians (m200.target_location.longitude -
      BASE_LOCATION.longitude) / 2) =
      Real.sin (100 / 6371) / Real.cos (toRadians 40.7128) := by
    rw [hdLon]
    rw [show 2 * Real.arcsin (Real.sin (100 / 6371) / Real.cos (toRadians 40.7128)) / 2 =
      Real.arcsin (Real.sin (100 / 6371) / Real.cos (toRadians 40.7128)) from by ring]
    exact Real.sin_arcsin (by linarith) (le_of_lt hq_lt)
  have hA : haversineA BASE_LOCATION m200.target_location = Real.sin (100 / 6371) ^ 2 := by
    have hlat : m200.target_location.latitude - BASE_LOCATION.latitude = 0 := by
      show (40.7128 : ℝ) - 40.7128 = 0
      ring
    simp only [haversineA]
    rw [hlat, toRadians_zero]
    rw [show (0 : ℝ) / 2 = 0 from by ring, Real.sin_zero]
    rw [hsin_half]
    have hlat2 : m200.target_location.latitude = (40.7128 : ℝ) := rfl
    have hlat1 : BASE_LOCATION.latitude = (40.7128 : ℝ) := rfl
    rw [hlat1, hlat2]
    field_simp
    ring
  have hcosx_pos : 0 < Real.cos (100 / 6371) :=
    Real.cos_pos_of_mem_Ioo ⟨by linarith, hx_lt⟩
  unfold calculateDistance
  rw [hA]
  rw [Real.sqrt_sq (le_of_lt hsin_pos)]
  rw [show (1 : ℝ) - Real.sin (100 / 6371) ^ 2 = Real.cos (100 / 6371) ^ 2 from
    (Real.cos_sq' _).symm]
  rw [Real.sqrt_sq (le_of_lt hcosx_pos)]
  unfold jsAtan2
  rw [if_pos hcosx_pos]
  rw [show Real.sin (100 / 6371) / Real.cos (100 / 6371) = Real.tan (100 / 6371) from
    (Real.tan_eq_sin_div_cos _).symm]
  rw [Real.arctan_tan (by linarith) hx_lt]
  unfold EARTH_RADIUS
  norm_num

lemma dist_far_BASE : calculateDistance m200.target_location BASE_LOCATION = 200 := by
  rw [calculateDistance_symm]
  exact dist_BASE_far

lemma dist_pole : calculateDistance ⟨90, 0⟩ ⟨90, 90⟩ = 0 := by
  have h90 : toRadians 90 = Real.pi / 2 := by
    unfold toRadians
    ring
  have hA : haversineA ⟨90, 0⟩ ⟨90, 90⟩ = 0 := by
    unfold haversineA
    show Real.sin (toRadians ((90 : ℝ) - 90) / 2) * Real.sin (toRadians ((90 : ℝ) - 90) / 2) +
      Real.cos (toRadians 90) * Real.cos (toRadians 90) *
        (Real.sin (toRadians ((90 : ℝ) - 0) / 2) * Real.sin (toRadians ((90 : ℝ) - 0) / 2)) = 0
    rw [show (90 : ℝ) - 90 = 0 from by ring, toRadians_zero, h90, Real.cos_pi_div_two]
    simp
  unfold calculateDistance
  rw [hA]
  simp [jsAtan2_zero_one]

lemma selectBest_single_infeasible (droneSpecs : DroneSpecs) (cur base w : RouteWaypoint)
    (t : ℝ) (h : ¬feasibleStep droneSpecs cur base t w) :
    selectBest droneSpecs cur base [w] t = none := by
  unfold selectBest
  rw [show ([w].foldl (selectStep droneSpecs cur base t) none) =
    selectStep droneSpecs cur base t none w from rfl]
  rw [selectStep_of_not_feasible droneSpecs cur base t none w h]
  rfl

lemma selectBest_single_feasible (droneSpecs : DroneSpecs) (cur base w : RouteWaypoint)
    (t : ℝ) (h : feasibleStep droneSpecs cur base t w) :
    selectBest droneSpecs cur base [w] t = some w := by
  unfold selectBest
  rw [show ([w].foldl (selectStep droneSpecs cur base t) none) =
    selectStep droneSpecs cur base t none w from rfl]
  rw [selectStep_of_feasible droneSpecs cur base t none w h]
  rfl

lemma nnLoop_one_infeasible (droneSpecs : DroneSpecs) (base w : RouteWaypoint)
    (hT : (0 : ℝ) < droneSpecs.maxFlightTime)
    (hw : ¬feasibleStep droneSpecs base base 0 w) :
    nnLoop droneSpecs base 1 [w] [base] base 0 0 = [base] := by
  rw [show (1 : ℕ) = 0 + 1 from rfl, nnLoop]
  rw [if_neg (by push_neg; exact ⟨by simp, hT⟩)]
  rw [selectBest_single_infeasible droneSpecs base base w 0 hw]

lemma nnLoop_one_feasible (droneSpecs : DroneSpecs) (base w : RouteWaypoint)
    (hT : (0 : ℝ) < droneSpecs.maxFlightTime)
    (hw : feasibleStep droneSpecs base base 0 w) :
    nnLoop droneSpecs base 1 [w] [base] base 0 0 = [base, w] := by
  rw [show (1 : ℕ) = 0 + 1 from rfl, nnLoop]
  rw [if_neg (by push_neg; exact ⟨by simp, hT⟩)]
  rw [selectBest_single_feasible droneSpecs base base w 0 hw]
  show nnLoop droneSpecs base 0 (removeFirst [w] w) ([base] ++ [w]) w
    (0 + legMinutes droneSpecs (calculateDistance base.coordinate w.coordinate))
    (0 + calculateDistance base.coordinate w.coordinate) = [base, w]
  rw [nnLoop]
  rfl

lemma closeRoute_single (b0 b : RouteWaypoint) : closeRoute [b0] b = [b0] := by
  unfold closeRoute
  rw [if_neg (by simp)]

lemma closeRoute_pair (b0 w b : RouteWaypoint) (hw : ¬(w.type = WType.base)) :
    closeRoute [b0, w] b = [b0, w, b] := by
  unfold closeRoute
  rw [if_pos (by simp)]
  rw [show ([b0, w] : List RouteWaypoint).getLast? = some w from rfl]
  show (if w.type = WType.base then [b0, w] else [b0, w] ++ [b]) = [b0, w, b]
  rw [if_neg hw]
  rfl

lemma metricsLoop_single (droneSpecs : DroneSpecs) (w : RouteWaypoint) :
    metricsLoop droneSpecs [w] = (0, 0) := rfl

lemma calculateRouteMetrics_single_base (droneSpecs : DroneSpecs) :
    calculateRouteMetrics [baseWaypoint] droneSpecs = ⟨0, 0, 100, 0⟩ := by
  unfold calculateRouteMetrics
  rw [metricsLoop_single]
  have hf : ([baseWaypoint].filter (fun w => decide (w.type = WType.delivery))) = [] := by
    simp [baseWaypoint]
  rw [hf]
  have e1 : jsRound ((0 : ℝ) * 100) / 100 = 0 := by
    rw [show ((0 : ℝ) * 100) = 0 from by ring, jsRound_eq 0 0 (by norm_num) (by norm_num)]
    norm_num
  have e2 : jsRound (0 : ℝ) = 0 := by
    rw [jsRound_eq 0 0 (by norm_num) (by norm_num)]
    norm_num
  have e3 : jsRound ((100 : ℝ) * 100) / 100 = 100 := by
    rw [show ((100 : ℝ) * 100) = 10000 from by norm_num,
      jsRound_eq 10000 10000 (by norm_num) (by norm_num)]
    norm_num
  have e4 : min ((0 : ℝ) / droneSpecs.maxFlightTime * droneSpecs.batteryCapacity) 100 = 0 := by
    rw [show (0 : ℝ) / droneSpecs.maxFlightTime * droneSpecs.batteryCapacity = 0 from by
      rw [zero_div, zero_mul]]
    exact min_eq_left (by norm_num)
  simp only [List.length_nil, lt_irrefl, if_false, e4]
  rw [e1, e2, e3]

lemma optimizeRoute_eq (missions : List Mission) (specs : DroneSpecs)
    (h : missions ≠ []) :
    optimizeRoute missions specs =
      ⟨nearestNeighborWithPriority (missionsToWaypoints missions) specs,
        (calculateRouteMetrics
          (nearestNeighborWithPriority (missionsToWaypoints missions) specs) specs).totalDistance,
        (calculateRouteMetrics
          (nearestNeighborWithPriority (missionsToWaypoints missions) specs) specs).totalTime,
        (calculateRouteMetrics
          (nearestNeighborWithPriority (missionsToWaypoints missions) specs) specs).efficiency,
        (calculateRouteMetrics
          (nearestNeighborWithPriority (missionsToWaypoints missions) specs)
            specs).fuelConsumption⟩ := by
  have hpos : 0 < missions.length := List.length_pos.mpr h
  have hlen : ¬((missionsToWaypoints missions).length ≤ 1) := by
    simp only [missionsToWaypoints, List.length_cons, List.length_map]
    omega
  unfold optimizeRoute
  rw [if_neg hlen]

lemma optimizeRoute_waypoints (missions : List Mission) (specs : DroneSpecs)
    (h : missions ≠ []) :
    (optimizeRoute missions specs).waypoints =
      nearestNeighborWithPriority (missionsToWaypoints missions) specs := by
  rw [optimizeRoute_eq missions specs h]

lemma infeasible_far (specs : DroneSpecs) (m : Mission)
    (hd : calculateDistance BASE_LOCATION m.target_location = 200)
    (hspeed : specs.speed = 60) (hmax : specs.maxFlightTime < 400) :
    ¬feasibleStep specs baseWaypoint baseWaypoint 0 (missionWaypoint m) := by
  apply not_not_intro
  show (0 : ℝ) + legMinutes specs (calculateDistance baseWaypoint.coordinate
    (missionWaypoint m).coordinate) + legMinutes specs (calculateDistance
    (missionWaypoint m).coordinate baseWaypoint.coordinate) > specs.maxFlightTime
  rw [show baseWaypoint.coordinate = BASE_LOCATION from rfl,
    show (missionWaypoint m).coordinate = m.target_location from rfl,
    calculateDistance_symm m.target_location BASE_LOCATION, hd]
  unfold legMinutes
  rw [hspeed]
  have : (0 : ℝ) + 200 / 60 * 60 + 200 / 60 * 60 = 400 := by norm_num
  rw [this]
  exact hmax

lemma nn_far_default (m : Mission)
    (hd : calculateDistance BASE_LOCATION m.target_location = 200) :
    nearestNeighborWithPriority (missionsToWaypoints [m]) defaultDroneSpecs =
      [baseWaypoint] := by
  rw [nearestNeighbor_missions_eq]
  rw [show ([m].map missionWaypoint) = [missionWaypoint m] from rfl]
  rw [show ([missionWaypoint m] : List RouteWaypoint).length = 1 from rfl]
  rw [nnLoop_one_infeasible defaultDroneSpecs baseWaypoint (missionWaypoint m)
    (by norm_num [defaultDroneSpecs])
    (infeasible_far defaultDroneSpecs m hd rfl (by norm_num [defaultDroneSpecs]))]
  exact closeRoute_single baseWaypoint baseWaypoint

lemma optimizeRoute_far (m : Mission)
    (hd : calculateDistance BASE_LOCATION m.target_location = 200) :
    optimizeRoute [m] defaultDroneSpecs = ⟨[baseWaypoint], 0, 0, 100, 0⟩ := by
  rw [optimizeRoute_eq [m] defaultDroneSpecs (by simp), nn_far_default m hd,
    calculateRouteMetrics_single_base]

lemma optimizeRoute_m200 :
    optimizeRoute [m200] defaultDroneSpecs = ⟨[baseWaypoint], 0, 0, 100, 0⟩ :=
  optimizeRoute_far m200 dist_BASE_far

lemma feasible_far_403 : feasibleStep specs403 baseWaypoint baseWaypoint 0
    (missionWaypoint m200) := by
  show ¬((0 : ℝ) + legMinutes specs403 (calculateDistance baseWaypoint.coordinate
    (missionWaypoint m200).coordinate) + legMinutes specs403 (calculateDistance
    (missionWaypoint m200).coordinate baseWaypoint.coordinate) > specs403.maxFlightTime)
  rw [show baseWaypoint.coordinate = BASE_LOCATION from rfl,
    show (missionWaypoint m200).coordinate = m200.target_location from rfl,
    dist_BASE_far, dist_far_BASE]
  unfold legMinutes specs403
  norm_num

lemma nn_m200_403 :
    nearestNeighborWithPriority (missionsToWaypoints [m200]) specs403 =
      [baseWaypoint, missionWaypoint m200, baseWaypoint] := by
  rw [nearestNeighbor_missions_eq]
  rw [show ([m200].map missionWaypoint) = [missionWaypoint m200] from rfl]
  rw [show ([missionWaypoint m200] : List RouteWaypoint).length = 1 from rfl]
  rw [nnLoop_one_feasible specs403 baseWaypoint (missionWaypoint m200)
    (by norm_num [specs403]) feasible_far_403]
  exact closeRoute_pair baseWaypoint (missionWaypoint m200) baseWaypoint (by
    rw [show (missionWaypoint m200).type = WType.delivery from rfl]
    intro hh
    exact WType.noConfusion hh)

lemma feasible_m0 (specs : DroneSpecs) (hT : (0 : ℝ) < specs.maxFlightTime) :
    feasibleStep specs baseWaypoint baseWaypoint 0 (missionWaypoint m0) := by
  show ¬((0 : ℝ) + legMinutes specs (calculateDistance baseWaypoint.coordinate
    (missionWaypoint m0).coordinate) + legMinutes specs (calculateDistance
    (missionWaypoint m0).coordinate baseWaypoint.coordinate) > specs.maxFlightTime)
  rw [show baseWaypoint.coordinate = BASE_LOCATION from rfl,
    show (missionWaypoint m0).coordinate = BASE_LOCATION from rfl,
    calculateDistance_self]
  unfold legMinutes
  rw [zero_div, zero_mul]
  push_neg
  linarith

lemma nn_m0_default :
    nearestNeighborWithPriority (missionsToWaypoints [m0]) defaultDroneSpecs =
      [baseWaypoint, missionWaypoint m0, baseWaypoint] := by
  rw [nearestNeighbor_missions_eq]
  rw [show ([m0].map missionWaypoint) = [missionWaypoint m0] from rfl]
  rw [show ([missionWaypoint m0] : List RouteWaypoint).length = 1 from rfl]
  rw [nnLoop_one_feasible defaultDroneSpecs baseWaypoint (missionWaypoint m0)
    (by norm_num [defaultDroneSpecs]) (feasible_m0 defaultDroneSpecs
      (by norm_num [defaultDroneSpecs]))]
  exact closeRoute_pair baseWaypoint (missionWaypoint m0) baseWaypoint (by
    rw [show (missionWaypoint m0).type = WType.delivery from rfl]
    intro hh
    exact WType.noConfusion hh)

lemma optimizeRoute_nil (specs : DroneSpecs) :
    optimizeRoute [] specs = ⟨[baseWaypoint], 0, 0, 100, 0⟩ := by
  unfold optimizeRoute
  rw [if_pos (by simp [missionsToWaypoints])]
  rfl

lemma sortRoutes_replicate (r : OptimizedRoute) :
    sortRoutesByEfficiencyDesc [r, r, r] = [r, r, r] := by
  unfold sortRoutesByEfficiencyDesc
  have h := List.mergeSort_perm [r, r, r] (fun a b => decide (b.efficiency ≤ a.efficiency))
  rw [show ([r, r, r] : List OptimizedRoute) = List.replicate 3 r from rfl] at h ⊢
  exact List.perm_replicate.mp h

lemma generateRouteOptions_nil_specs0 :
    generateRouteOptions [] (some specs0) =
      [(⟨[baseWaypoint], 0, 0, 100, 0⟩ : OptimizedRoute),
        ⟨[baseWaypoint], 0, 0, 100, 0⟩, ⟨[baseWaypoint], 0, 0, 100, 0⟩] := by
  unfold generateRouteOptions
  rw [show (some specs0).getD defaultDroneSpecs = specs0 from rfl]
  rw [show sortByPriorityDesc [] = [] from by
    unfold sortByPriorityDesc; exact List.mergeSort_nil]
  rw [show sortByDistanceFromBase [] = [] from by
    unfold sortByDistanceFromBase; exact List.mergeSort_nil]
  show sortRoutesByEfficiencyDesc
    [optimizeRoute [] specs0, optimizeRoute [] specs0, optimizeRoute [] specs0] = _
  rw [optimizeRoute_nil specs0]
  exact sortRoutes_replicate _

lemma jsRound_10000 : jsRound ((100 : ℝ) * 100) / 100 = 100 := by
  rw [show ((100 : ℝ) * 100) = 10000 from by norm_num,
    jsRound_eq 10000 10000 (by norm_num) (by norm_num)]
  norm_num

lemma calculateRouteMetrics_efficiency (waypoints : List RouteWaypoint)
    (droneSpecs : DroneSpecs) :
    (calculateRouteMetrics waypoints droneSpecs).efficiency = 100 := by
  have key : ∀ n : ℕ,
      jsRound ((if 0 < n then ((n : ℝ) / (n : ℝ)) * 100 else 100) * 100) / 100 = 100 := by
    intro n
    by_cases h : 0 < n
    · rw [if_pos h, div_self (by exact_mod_cast h.ne'), one_mul]
      exact jsRound_10000
    · rw [if_neg h]
      exact jsRound_10000
  exact key _

lemma generateRouteOptions_length (missions : List Mission)
    (droneSpecs : Option DroneSpecs) :
    (generateRouteOptions missions droneSpecs).length = 3 := by
  unfold generateRouteOptions
  show (sortRoutesByEfficiencyDesc
    [optimizeRoute (sortByPriorityDesc missions) (droneSpecs.getD defaultDroneSpecs),
      optimizeRoute (sortByDistanceFromBase missions) (droneSpecs.getD defaultDroneSpecs),
      optimizeRoute missions (droneSpecs.getD defaultDroneSpecs)]).length = 3
  unfold sortRoutesByEfficiencyDesc
  rw [List.length_mergeSort]
  rfl

lemma prefixOk_concat (droneSpecs : DroneSpecs) (base : RouteWaypoint)
    (r : List RouteWaypoint) (b : RouteWaypoint) (hb : ¬(b.type = WType.delivery))
    (h : prefixOk droneSpecs base r) : prefixOk droneSpecs base (r ++ [b]) := by
  intro k w hk hdel
  by_cases hlt : k < r.length
  · rw [List.getElem?_append, if_pos hlt] at hk
    rw [List.take_append_of_le_length (by omega)]
    exact h k w hk hdel
  · rw [List.getElem?_append, if_neg hlt] at hk
    rcases hkr : k - r.length with _ | i
    · rw [hkr] at hk
      have hw : w = b := by simpa using hk.symm
      subst hw
      exact absurd hdel hb
    · rw [hkr] at hk
      simp at hk

lemma prefixOk_single_base (droneSpecs : DroneSpecs) (base : RouteWaypoint) :
    prefixOk droneSpecs base [baseWaypoint] := by
  intro k w hk hdel
  cases k with
  | zero =>
    have hw : w = baseWaypoint := by simpa using hk.symm
    subst hw
    simp [baseWaypoint] at hdel
  | succ n => simp at hk

lemma optimizeRoute_head (missions : List Mission) (specs : DroneSpecs) :
    ∃ w, (optimizeRoute missions specs).waypoints.head? = some w ∧
      w.type = WType.base := by
  by_cases h : missions = []
  · subst h
    rw [optimizeRoute_nil]
    exact ⟨baseWaypoint, rfl, rfl⟩
  · rw [optimizeRoute_waypoints missions specs h, nearestNeighbor_missions_eq]
    rw [closeRoute_head]
    obtain ⟨tail, ht⟩ := nnLoop_eq_append specs baseWaypoint
      (missions.map missionWaypoint).length (missions.map missionWaypoint)
      [baseWaypoint] baseWaypoint 0 0
    rw [ht]
    exact ⟨baseWaypoint, rfl, rfl⟩

lemma optimizeRoute_last (missions : List Mission) (specs : DroneSpecs) :
    ∃ w, (optimizeRoute missions specs).waypoints.getLast? = some w ∧
      w.type = WType.base := by
  by_cases h : missions = []
  · subst h
    rw [optimizeRoute_nil]
    exact ⟨baseWaypoint, rfl, rfl⟩
  · rw [optimizeRoute_waypoints missions specs h, nearestNeighbor_missions_eq]
    obtain ⟨tail, ht⟩ := nnLoop_eq_append specs baseWaypoint
      (missions.map missionWaypoint).length (missions.map missionWaypoint)
      [baseWaypoint] baseWaypoint 0 0
    rw [ht, show ([baseWaypoint] ++ tail) = baseWaypoint :: tail from rfl]
    exact closeRoute_getLast_base baseWaypoint baseWaypoint tail rfl rfl

lemma optimizeRoute_prefixOk (missions : List Mission) (specs : DroneSpecs) :
    prefixOk specs baseWaypoint (optimizeRoute missions specs).waypoints := by
  by_cases h : missions = []
  · subst h
    rw [optimizeRoute_nil]
    exact prefixOk_single_base specs baseWaypoint
  · rw [optimizeRoute_waypoints missions specs h, nearestNeighbor_missions_eq]
    have hnn := nnLoop_prefixOk specs baseWaypoint (missions.map missionWaypoint).length
      (missions.map missionWaypoint) [baseWaypoint] baseWaypoint 0 0 rfl
      (by rw [pathTravelTime_single]) (prefixOk_single_base specs baseWaypoint)
    rcases closeRoute_eq_or (nnLoop specs baseWaypoint (missions.map missionWaypoint).length
      (missions.map missionWaypoint) [baseWaypoint] baseWaypoint 0 0) baseWaypoint with hc | hc
    · rw [hc]; exact hnn
    · rw [hc]
      exact prefixOk_concat specs baseWaypoint _ baseWaypoint (by simp [baseWaypoint]) hnn

lemma deliveryIds_missionWaypoints (missions : List Mission) :
    deliveryIds (missions.map missionWaypoint) = missions.map Mission.id := by
  unfold deliveryIds
  rw [List.filter_map, List.filter_eq_self.mpr (by intro a _; simp [missionWaypoint]),
    List.map_map]
  rfl

lemma deliveryIds_base : deliveryIds [baseWaypoint] = [] := by
  simp [deliveryIds, baseWaypoint]

lemma optimizeRoute_deliveryIds_nodup (missions : List Mission) (specs : DroneSpecs)
    (h : (missions.map Mission.id).Nodup) :
    (deliveryIds (optimizeRoute missions specs).waypoints).Nodup := by
  by_cases hm : missions = []
  · subst hm
    rw [optimizeRoute_nil]
    rw [deliveryIds_base]
    exact List.nodup_nil
  · rw [optimizeRoute_waypoints missions specs hm, nearestNeighbor_missions_eq]
    have hle := nnLoop_deliveryIds_le specs baseWaypoint
      (missions.map missionWaypoint).length (missions.map missionWaypoint)
      [baseWaypoint] baseWaypoint 0 0
    rw [deliveryIds_base, deliveryIds_missionWaypoints] at hle
    have hle2 : (deliveryIds (nnLoop specs baseWaypoint
        (missions.map missionWaypoint).length (missions.map missionWaypoint)
        [baseWaypoint] baseWaypoint 0 0) : Multiset String) ≤
          (missions.map Mission.id : Multiset String) := by
      simpa using hle
    have hnod : (deliveryIds (nnLoop specs baseWaypoint
        (missions.map missionWaypoint).length (missions.map missionWaypoint)
        [baseWaypoint] baseWaypoint 0 0)).Nodup :=
      Multiset.coe_nodup.mp (Multiset.nodup_of_le hle2 (Multiset.coe_nodup.mpr h))
    rcases closeRoute_eq_or (nnLoop specs baseWaypoint (missions.map missionWaypoint).length
      (missions.map missionWaypoint) [baseWaypoint] baseWaypoint 0 0) baseWaypoint with hc | hc
    · rw [hc]; exact hnod
    · rw [hc, deliveryIds_append, deliveryIds_base, List.append_nil]
      exact hnod

lemma bearingToDirection_mem (bearing : ℝ) : bearingToDirection bearing ∈ directions := by
  unfold bearingToDirection
  have h1 : (0 : ℤ) ≤ ⌊bearing / 45 + 1 / 2⌋ % 8 := Int.emod_nonneg _ (by norm_num)
  have h2 : ⌊bearing / 45 + 1 / 2⌋ % 8 < 8 := Int.emod_lt_of_pos _ (by norm_num)
  have h8 : (⌊bearing / 45 + 1 / 2⌋ % 8).toNat < directions.length := by
    show (⌊bearing / 45 + 1 / 2⌋ % 8).toNat < 8
    omega
  rw [List.getD_eq_getElem directions "N" h8]
  exact List.getElem_mem h8

lemma instructionsLoop_delivery (x y : RouteWaypoint) (rest : List RouteWaypoint)
    (hy : y.type = WType.delivery) :
    instructionsLoop (x :: y :: rest) =
      ("Proceed " ++ toFixed1 (calculateDistance x.coordinate y.coordinate) ++ "km " ++
        bearingToDirection (calculateBearing x.coordinate y.coordinate) ++
        " to delivery point " ++ y.id) :: instructionsLoop (y :: rest) := by
  rw [instructionsLoop, hy]

lemma instructionsLoop_base (x y : RouteWaypoint) (rest : List RouteWaypoint)
    (hy : y.type = WType.base) :
    instructionsLoop (x :: y :: rest) =
      ("Return " ++ toFixed1 (calculateDistance x.coordinate y.coordinate) ++ "km " ++
        bearingToDirection (calculateBearing x.coordinate y.coordinate) ++
        " to base") :: instructionsLoop (y :: rest) := by
  rw [instructionsLoop, hy]

lemma instructionsLoop_spec :
    ∀ (l : List RouteWaypoint),
      (∀ w ∈ l.tail, w.type = WType.delivery ∨ w.type = WType.base) →
      (instructionsLoop l).length = l.length - 1 ∧
        ∀ instr ∈ instructionsLoop l,
          ∃ pre d post, d ∈ directions ∧ instr = pre ++ d ++ post := by
  intro l
  induction l with
  | nil =>
    intro _
    refine ⟨rfl, ?_⟩
    intro instr hi
    simp [instructionsLoop] at hi
  | cons x xs ih =>
    intro h
    cases xs with
    | nil =>
      refine ⟨rfl, ?_⟩
      intro instr hi
      simp [instructionsLoop] at hi
    | cons y rest =>
      have hy : y.type = WType.delivery ∨ y.type = WType.base := h y (by simp)
      have htail : ∀ w ∈ (y :: rest).tail, w.type = WType.delivery ∨ w.type = WType.base := by
        intro w hw
        exact h w (List.mem_cons_of_mem y hw)
      obtain ⟨ihlen, ihmem⟩ := ih htail
      rcases hy with hy | hy
      · rw [instructionsLoop_delivery x y rest hy]
        constructor
        · simp only [List.length_cons, ihlen, List.length_cons]
          omega
        · intro instr hi
          rcases List.mem_cons.mp hi with rfl | hi2
          · refine ⟨"Proceed " ++ toFixed1 (calculateDistance x.coordinate y.coordinate) ++
              "km ", bearingToDirection (calculateBearing x.coordinate y.coordinate),
              " to delivery point " ++ y.id, bearingToDirection_mem _, ?_⟩
            simp [String.append_assoc]
          · exact ihmem instr hi2
      · rw [instructionsLoop_base x y rest hy]
        constructor
        · simp only [List.length_cons, ihlen, List.length_cons]
          omega
        · intro instr hi
          rcases List.mem_cons.mp hi with rfl | hi2
          · refine ⟨"Return " ++ toFixed1 (calculateDistance x.coordinate y.coordinate) ++
              "km ", bearingToDirection (calculateBearing x.coordinate y.coordinate),
              " to base", bearingToDirection_mem _, ?_⟩
            simp [String.append_assoc]
          · exact ihmem instr hi2

/-- C1 (code bug): the specification defines efficiencyPercent as the ratio of
delivery waypoints included to delivery targets requested, so a route that
omits a requested target must score below 100. The code instead divides the
included-delivery count by itself, so calculateRouteMetrics yields efficiency
100 for every waypoint list; at the concrete input of one target 200 km from
the base (round trip infeasible under the default profile) the produced route
contains no delivery waypoint yet still reports efficiency 100. -/
theorem C1_efficiency_always_100 :
    (∀ (waypoints : List RouteWaypoint) (droneSpecs : DroneSpecs),
      (calculateRouteMetrics waypoints droneSpecs).efficiency = 100) ∧
    calculateDistance BASE_LOCATION m200.target_location = 200 ∧
    (optimizeRoute [m200] defaultDroneSpecs).efficiency = 100 ∧
    deliveryIds (optimizeRoute [m200] defaultDroneSpecs).waypoints = [] := by
  refine ⟨calculateRouteMetrics_efficiency, dist_BASE_far, ?_, ?_⟩
  · rw [optimizeRoute_m200]
  · rw [optimizeRoute_m200]
    exact deliveryIds_base

/-- C2 counterexample: with maxEnduranceMinutes = 0, an invalid configuration,
generateRouteOptions does not raise any ConfigurationError; it returns
normally with three constructed routes. -/
theorem C2_counterexample :
    specs0.maxFlightTime = 0 ∧
    generateRouteOptions [] (some specs0) =
      [(⟨[baseWaypoint], 0, 0, 100, 0⟩ : OptimizedRoute),
        ⟨[baseWaypoint], 0, 0, 100, 0⟩, ⟨[baseWaypoint], 0, 0, 100, 0⟩] :=
  ⟨rfl, generateRouteOptions_nil_specs0⟩

/-- C2 (amended): generateRouteOptions performs no validation of the vehicle
profile and never raises; for every input, including profiles whose
maxEnduranceMinutes, cruiseSpeedKmh or maxRangeKm are non-positive, it returns
normally with exactly three constructed routes. -/
theorem C2_total_three_routes (missions : List Mission)
    (droneSpecs : Option DroneSpecs) :
    (generateRouteOptions missions droneSpecs).length = 3 :=
  generateRouteOptions_length missions droneSpecs

/-- C3 counterexample: at the concrete input of one delivery target exactly
200 km from the base with the profile (50, 120, 60, 100), the returned route
is not [Base, Base] and its efficiency is not 0. -/
theorem C3_counterexample :
    calculateDistance BASE_LOCATION m200.target_location = 200 ∧
    (optimizeRoute [m200] defaultDroneSpecs).waypoints ≠ [baseWaypoint, baseWaypoint] ∧
    (optimizeRoute [m200] defaultDroneSpecs).efficiency ≠ 0 := by
  refine ⟨dist_BASE_far, ?_, ?_⟩
  · rw [optimizeRoute_m200]
    simp
  · rw [optimizeRoute_m200]
    norm_num

/-- C3 (amended): for one delivery target 200 km from the base under the
default profile the Constructor excludes the target as infeasible, but the
returned waypoint sequence is exactly [Base]: the closing Base is appended
only when some waypoint was visited, and the efficiency reported by the code
is 100, its constant value, not 0. -/
theorem C3_far_target_excluded (m : Mission)
    (hd : calculateDistance BASE_LOCATION m.target_location = 200) :
    (optimizeRoute [m] defaultDroneSpecs).waypoints = [baseWaypoint] ∧
    (optimizeRoute [m] defaultDroneSpecs).efficiency = 100 := by
  rw [optimizeRoute_far m hd]
  exact ⟨rfl, rfl⟩

/-- C3 witness: the amended statement holds at the concrete 200 km mission. -/
theorem C3_witness :
    calculateDistance BASE_LOCATION m200.target_location = 200 ∧
    (optimizeRoute [m200] defaultDroneSpecs).waypoints = [baseWaypoint] ∧
    (optimizeRoute [m200] defaultDroneSpecs).efficiency = 100 :=
  ⟨dist_BASE_far, (C3_far_target_excluded m200 dist_BASE_far).1,
    (C3_far_target_excluded m200 dist_BASE_far).2⟩

/-- C4 counterexample: with maxFlightTime 403 and a target 200 km away the
constructor selects the target (travel check 400 is within 403), yet travel
plus the 5-minute dwell plus the return leg is 405 > 403: no dwell time is
added to elapsed minutes during construction, so the claimed travel-plus-dwell
prefix bound fails at the delivery waypoint, which is not the final closing
leg. -/
theorem C4_counterexample :
    (optimizeRoute [m200] specs403).waypoints =
      [baseWaypoint, missionWaypoint m200, baseWaypoint] ∧
    ((optimizeRoute [m200] specs403).waypoints)[1]? = some (missionWaypoint m200) ∧
    (missionWaypoint m200).type = WType.delivery ∧
    specs403.maxFlightTime <
      pathTravelTime specs403 ((optimizeRoute [m200] specs403).waypoints.take 2) +
        5 * (dwellCount ((optimizeRoute [m200] specs403).waypoints.take 2) : ℝ) +
        legMinutes specs403 (calculateDistance (missionWaypoint m200).coordinate
          baseWaypoint.coordinate) := by
  have hw : (optimizeRoute [m200] specs403).waypoints =
      [baseWaypoint, missionWaypoint m200, baseWaypoint] := by
    rw [optimizeRoute_waypoints [m200] specs403 (by simp)]
    exact nn_m200_403
  refine ⟨hw, by rw [hw]; rfl, rfl, ?_⟩
  rw [hw]
  rw [show ([baseWaypoint, missionWaypoint m200, baseWaypoint].take 2) =
    [baseWaypoint, missionWaypoint m200] from rfl]
  rw [pathTravelTime_cons_cons, pathTravelTime_single]
  rw [show baseWaypoint.coordinate = BASE_LOCATION from rfl,
    show (missionWaypoint m200).coordinate = m200.target_location from rfl,
    dist_BASE_far, calculateDistance_symm m200.target_location BASE_LOCATION, dist_BASE_far]
  have hdc : dwellCount [baseWaypoint, missionWaypoint m200] = 1 := by
    simp [dwellCount, baseWaypoint, missionWaypoint]
  rw [hdc]
  unfold legMinutes specs403
  norm_num

/-- C4 (amended): the constructor adds only travel time to elapsedMinutes (the
5-minute dwell appears solely in the route evaluator), and what it guarantees
is the travel-only bound: for every delivery waypoint of a constructed route,
the travel time of the prefix up to it plus the return leg to base does not
exceed maxFlightTime. -/
theorem C4_travel_prefix_feasible (missions : List Mission) (specs : DroneSpecs)
    (k : ℕ) (w : RouteWaypoint)
    (hk : ((optimizeRoute missions specs).waypoints)[k]? = some w)
    (hdel : w.type = WType.delivery) :
    pathTravelTime specs ((optimizeRoute missions specs).waypoints.take (k + 1)) +
      legMinutes specs (calculateDistance w.coordinate baseWaypoint.coordinate) ≤
        specs.maxFlightTime :=
  optimizeRoute_prefixOk missions specs k w hk hdel

/-- C4 witness: the travel-only bound evaluated on the route for a single
mission at the base location under the default profile. -/
theorem C4_witness :
    ((optimizeRoute [m0] defaultDroneSpecs).waypoints)[1]? = some (missionWaypoint m0) ∧
    pathTravelTime defaultDroneSpecs
        ((optimizeRoute [m0] defaultDroneSpecs).waypoints.take 2) +
      legMinutes defaultDroneSpecs (calculateDistance (missionWaypoint m0).coordinate
        baseWaypoint.coordinate) ≤ defaultDroneSpecs.maxFlightTime := by
  have hw : (optimizeRoute [m0] defaultDroneSpecs).waypoints =
      [baseWaypoint, missionWaypoint m0, baseWaypoint] := by
    rw [optimizeRoute_waypoints [m0] defaultDroneSpecs (by simp)]
    exact nn_m0_default
  have h1 : ((optimizeRoute [m0] defaultDroneSpecs).waypoints)[1]? =
      some (missionWaypoint m0) := by
    rw [hw]
    rfl
  exact ⟨h1, C4_travel_prefix_feasible [m0] defaultDroneSpecs 1 (missionWaypoint m0) h1 rfl⟩

/-- C5 counterexample: the code weights a candidate of priority rank 1 at unit
distance with score 1 * (6 - 1) = 5, not the claimed 1 * (5 - 1) = 4; the
weight ceiling used by the code is 6, not 5. -/
theorem C5_counterexample :
    candidateScore 1 (missionWaypoint m0) = 5 ∧
    (1 : ℝ) * (5 - (missionWaypoint m0).priority) = 4 ∧
    (5 : ℝ) ≠ 4 := by
  have hp : (missionWaypoint m0).priority = 1 := rfl
  refine ⟨?_, ?_, by norm_num⟩
  · unfold candidateScore
    rw [hp]
    norm_num
  · rw [hp]
    norm_num

/-- C5 (amended): each feasible candidate is scored as
legDistance * (6 - priorityRank), with weight constant 6 (two above the
maximum rank 4), and the selected candidate is a feasible member of the
unvisited list whose score is minimal among all feasible candidates. -/
theorem C5_scoring (droneSpecs : DroneSpecs) (current base : RouteWaypoint)
    (unvisited : List RouteWaypoint) (totalTime : ℝ) (w : RouteWaypoint)
    (h : selectBest droneSpecs current base unvisited totalTime = some w) :
    (∀ (d : ℝ) (u : RouteWaypoint), candidateScore d u = d * (6 - u.priority)) ∧
    w ∈ unvisited ∧ feasibleStep droneSpecs current base totalTime w ∧
    ∀ u ∈ unvisited, feasibleStep droneSpecs current base totalTime u →
      candidateScore (calculateDistance current.coordinate w.coordinate) w ≤
        candidateScore (calculateDistance current.coordinate u.coordinate) u :=
  ⟨fun _ _ => rfl, selectBest_spec droneSpecs current base unvisited totalTime w h⟩

/-- C5 witness: the selection property evaluated for one feasible candidate at
the base location. -/
theorem C5_witness :
    selectBest defaultDroneSpecs baseWaypoint baseWaypoint [missionWaypoint m0] 0 =
      some (missionWaypoint m0) ∧
    ((∀ (d : ℝ) (u : RouteWaypoint), candidateScore d u = d * (6 - u.priority)) ∧
      missionWaypoint m0 ∈ [missionWaypoint m0] ∧
      feasibleStep defaultDroneSpecs baseWaypoint baseWaypoint 0 (missionWaypoint m0) ∧
      ∀ u ∈ [missionWaypoint m0],
        feasibleStep defaultDroneSpecs baseWaypoint baseWaypoint 0 u →
        candidateScore (calculateDistance baseWaypoint.coordinate
          (missionWaypoint m0).coordinate) (missionWaypoint m0) ≤
          candidateScore (calculateDistance baseWaypoint.coordinate u.coordinate) u) := by
  have hsel : selectBest defaultDroneSpecs baseWaypoint baseWaypoint [missionWaypoint m0] 0 =
      some (missionWaypoint m0) :=
    selectBest_single_feasible defaultDroneSpecs baseWaypoint baseWaypoint
      (missionWaypoint m0) 0 (feasible_m0 defaultDroneSpecs (by norm_num [defaultDroneSpecs]))
  exact ⟨hsel, C5_scoring defaultDroneSpecs baseWaypoint baseWaypoint
    [missionWaypoint m0] 0 (missionWaypoint m0) hsel⟩

/-- C6: every route produced from missions starts with a Base waypoint, and
when the mission list is non-empty and some target passes the initial
round-trip feasibility check, the route also ends with a Base waypoint (the
return leg is appended rather than dropped). -/
theorem C6_closure (missions : List Mission) (specs : DroneSpecs)
    (h1 : missions ≠ [])
    (h2 : ∃ m ∈ missions,
      legMinutes specs (calculateDistance BASE_LOCATION m.target_location) +
        legMinutes specs (calculateDistance m.target_location BASE_LOCATION) ≤
          specs.maxFlightTime) :
    (∃ w, (optimizeRoute missions specs).waypoints.head? = some w ∧
      w.type = WType.base) ∧
    (∃ w, (optimizeRoute missions specs).waypoints.getLast? = some w ∧
      w.type = WType.base) :=
  ⟨optimizeRoute_head missions specs, optimizeRoute_last missions specs⟩

/-- C6 witness: closure evaluated for a single feasible mission at the base
location under the default profile. -/
theorem C6_witness :
    (([m0] : List Mission) ≠ [] ∧
      ∃ m ∈ [m0],
        legMinutes defaultDroneSpecs (calculateDistance BASE_LOCATION m.target_location) +
          legMinutes defaultDroneSpecs (calculateDistance m.target_location BASE_LOCATION) ≤
            defaultDroneSpecs.maxFlightTime) ∧
    (∃ w, (optimizeRoute [m0] defaultDroneSpecs).waypoints.head? = some w ∧
      w.type = WType.base) ∧
    (∃ w, (optimizeRoute [m0] defaultDroneSpecs).waypoints.getLast? = some w ∧
      w.type = WType.base) := by
  have hfe : legMinutes defaultDroneSpecs
      (calculateDistance BASE_LOCATION m0.target_location) +
        legMinutes defaultDroneSpecs (calculateDistance m0.target_location BASE_LOCATION) ≤
          defaultDroneSpecs.maxFlightTime := by
    rw [show m0.target_location = BASE_LOCATION from rfl, calculateDistance_self]
    unfold legMinutes
    norm_num [defaultDroneSpecs]
  exact ⟨⟨by simp, m0, by simp, hfe⟩,
    C6_closure [m0] defaultDroneSpecs (by simp) ⟨m0, by simp, hfe⟩⟩

/-- C7 counterexample: two distinct coordinate values at the north pole have
haversine distance 0, so distance zero does not imply equality of the
coordinate records. -/
theorem C7_counterexample :
    calculateDistance ⟨90, 0⟩ ⟨90, 90⟩ = 0 ∧ (⟨90, 0⟩ : Coordinate) ≠ ⟨90, 90⟩ := by
  refine ⟨dist_pole, ?_⟩
  intro h
  have h2 : (0 : ℝ) = 90 := congrArg Coordinate.longitude h
  norm_num at h2

/-- C7 (amended): calculateDistance is symmetric and vanishes on equal
coordinates; the converse (zero only at equal coordinates) fails at the
poles. -/
theorem C7_symm_and_self :
    (∀ a b : Coordinate, calculateDistance a b = calculateDistance b a) ∧
    (∀ a : Coordinate, calculateDistance a a = 0) :=
  ⟨calculateDistance_symm, calculateDistance_self⟩

/-- C8: when the mission identifiers are distinct, each identifier appears at
most once among the delivery waypoints of the produced route. -/
theorem C8_no_duplicate_targets (missions : List Mission) (specs : DroneSpecs)
    (h : (missions.map Mission.id).Nodup) :
    (deliveryIds (optimizeRoute missions specs).waypoints).Nodup :=
  optimizeRoute_deliveryIds_nodup missions specs h

/-- C8 witness: no-duplication evaluated for a single mission under the
default profile. -/
theorem C8_witness :
    (([m0] : List Mission).map Mission.id).Nodup ∧
    (deliveryIds (optimizeRoute [m0] defaultDroneSpecs).waypoints).Nodup := by
  have h : (([m0] : List Mission).map Mission.id).Nodup := by simp
  exact ⟨h, C8_no_duplicate_targets [m0] defaultDroneSpecs h⟩

/-- C9: on a route whose every waypoint after the first is a delivery or base
waypoint, generateNavigationInstructions emits exactly one instruction per
leg, and each instruction carries one of the eight compass labels, the label
being produced by bearingToDirection, which buckets the bearing by nearest
45-degree sector. -/
theorem C9_instructions (route : OptimizedRoute)
    (h : ∀ w ∈ route.waypoints.tail, w.type = WType.delivery ∨ w.type = WType.base) :
    (generateNavigationInstructions route).length = route.waypoints.length - 1 ∧
    ∀ instr ∈ generateNavigationInstructions route,
      ∃ pre d post, d ∈ directions ∧ instr = pre ++ d ++ post :=
  instructionsLoop_spec route.waypoints h

/-- C9 witness: the instruction count and label property evaluated on a
two-waypoint route. -/
theorem C9_witness :
    (∀ w ∈ (⟨[baseWaypoint, baseWaypoint], 0, 0, 100, 0⟩ :
        OptimizedRoute).waypoints.tail,
      w.type = WType.delivery ∨ w.type = WType.base) ∧
    (generateNavigationInstructions
      (⟨[baseWaypoint, baseWaypoint], 0, 0, 100, 0⟩ : OptimizedRoute)).length =
        (⟨[baseWaypoint, baseWaypoint], 0, 0, 100, 0⟩ :
          OptimizedRoute).waypoints.length - 1 ∧
    ∀ instr ∈ generateNavigationInstructions
        (⟨[baseWaypoint, baseWaypoint], 0, 0, 100, 0⟩ : OptimizedRoute),
      ∃ pre d post, d ∈ directions ∧ instr = pre ++ d ++ post := by
  have h : ∀ w ∈ (⟨[baseWaypoint, baseWaypoint], 0, 0, 100, 0⟩ :
      OptimizedRoute).waypoints.tail,
      w.type = WType.delivery ∨ w.type = WType.base := by
    intro w hw
    have hw2 : w = baseWaypoint := by simpa using hw
    rw [hw2]
    exact Or.inr rfl
  obtain ⟨hlen, hmem⟩ :=
    C9_instructions (⟨[baseWaypoint, baseWaypoint], 0, 0, 100, 0⟩ : OptimizedRoute) h
  exact ⟨h, hlen, hmem⟩

/-- C10: generateRouteOptions never mutates the caller-supplied mission list:
the state-threaded embedding returns the caller array unchanged while
computing the same result, and the two sorted orderings are permutations of
the input built from copies. -/
theorem C10_no_mutation (missions : List Mission) (droneSpecs : Option DroneSpecs) :
    (generateRouteOptionsTracked missions droneSpecs).2 = missions ∧
    (generateRouteOptionsTracked missions droneSpecs).1 =
      generateRouteOptions missions droneSpecs ∧
    (sortByPriorityDesc missions).Perm missions ∧
    (sortByDistanceFromBase missions).Perm missions := by
  refine ⟨rfl, rfl, ?_, ?_⟩
  · unfold sortByPriorityDesc
    exact List.mergeSort_perm _ _
  · unfold sortByDistanceFromBase
    exact List.mergeSort_perm _ _

end Arjuna
